import Mathlib

/-!
Verification of the Calorie Burn Predictor & Fitness Tracker.

The repository's UI layer is `app.py`; the computational backend module
(`CaloriePredictor`, `NutritionAdvisor`, `LogBook`, `AIAnalyzer`) is imported
by `app.py` but its source file is not in the repository.  Arithmetic that
lives directly in `app.py` (BMI, BMR, calorie-goal branches, slider ranges,
empty-state guards) is embedded from that source; the backend operations are
modelled from the specification, each such definition carrying a doc comment
that says so.

All numeric quantities are modelled as rationals (`ℚ`): every value involved
is produced by finitely many field operations on user-entered numbers, and the
claims are about the exact formulas.
-/

namespace CalorieApp

/-- Gender, as selected in the sidebar selectbox of `app.py` (line 70). -/
inductive Gender where
  | Male : Gender
  | Female : Gender
deriving Repr, DecidableEq

/-- BMI as computed in the sidebar of `app.py` (line 76):
`bmi = weight / ((height / 100) ** 2)`. -/
def bmi (weight height : ℚ) : ℚ := weight / ((height / 100) ^ 2)

/-- BMI by the definition in the spec's glossary: weight divided by the square
of the height in metres. -/
def spec_bmi (weight height_in_metres : ℚ) : ℚ := weight / height_in_metres ^ 2

/-- BMR as computed in `app.py` (lines 324-328): Mifflin-St Jeor branch on
gender. -/
def bmr (gender : Gender) (weight height age : ℚ) : ℚ :=
  match gender with
  | .Male => 10 * weight + 6.25 * height - 5 * age + 5
  | .Female => 10 * weight + 6.25 * height - 5 * age - 161

/-- The Mifflin-St Jeor equation exactly as the claim states it. -/
def mifflin_st_jeor (gender : Gender) (weight height age : ℚ) : ℚ :=
  if gender = .Male then 10 * weight + 6.25 * height - 5 * age + 5
  else 10 * weight + 6.25 * height - 5 * age - 161

/-- Target weight from a target BMI, `app.py` line 427:
`target_weight = target_bmi * ((height / 100) ** 2)`. -/
def target_weight (target_bmi height : ℚ) : ℚ := target_bmi * ((height / 100) ^ 2)

/-- The value rendered by the weight-goal metric of the Daily Calorie
Guidelines. -/
inductive WeightGoal where
  | loss (kcal_per_day : ℚ) : WeightGoal
  | gain (kcal_per_day : ℚ) : WeightGoal
deriving Repr, DecidableEq

/-- The goal metric rendered in `app.py` lines 336-339: a Weight Loss Goal of
`bmr * 1.55 - 500` when `bmi > 25`, otherwise a Weight Gain Goal of
`bmr * 1.55 + 500`. -/
def weight_goal_metric (bmi_value bmr_value : ℚ) : WeightGoal :=
  if bmi_value > 25 then .loss (bmr_value * 1.55 - 500)
  else .gain (bmr_value * 1.55 + 500)

/-- The value returned by a Streamlit integer slider with bounds `lo` and
`hi` (`st.slider(label, lo, hi, default)`): the widget only produces values
inside `[lo, hi]`, modelled as clamping. `app.py` line 113 instantiates it
with `lo = 5`, `hi = 180` for the duration. -/
def slider_value (lo hi x : ℤ) : ℤ := max lo (min hi x)

/-- The Cal/min metric of `app.py` line 160: `calories / duration`. -/
def cal_per_min (calories : ℚ) (duration : ℤ) : ℚ := calories / (duration : ℚ)

/-- The four BMI categories named by the spec and rendered by the BMI gauge of
`app.py` (lines 282-296). -/
inductive BMICategory where
  | Underweight : BMICategory
  | Normal : BMICategory
  | Overweight : BMICategory
  | Obese : BMICategory
deriving Repr, DecidableEq

/-- Modelled from the spec: `NutritionAdvisor.get_bmi_category` lives in the
absent `backend` module; the spec fixes the boundaries 18.5, 25 and 30, and
the BMI gauge steps in `app.py` lines 286-289 colour exactly the bands
[15, 18.5), [18.5, 25), [25, 30), [30, 40). -/
def get_bmi_category (b : ℚ) : BMICategory :=
  if b < 18.5 then .Underweight
  else if b < 25 then .Normal
  else if b < 30 then .Overweight
  else .Obese

/-- A log entry, with the fields written by `app.py` lines 141-149 plus the
timestamp the spec says the LogBook attaches.  The timestamp is modelled as a
day index. -/
structure LogEntry where
  timestamp : ℕ
  exercise_type : String
  duration : ℚ
  heart_rate : ℚ
  body_temp : ℚ
  calories_burned : ℚ
  weight : ℚ
  entry_bmi : ℚ
deriving Repr, DecidableEq

/-- The LogBook state: the ordered sequence of entries. -/
structure LogBook where
  entries : List LogEntry
deriving Repr, DecidableEq

/-- Modelled from the spec: `LogBook.add_entry` appends a prediction event to
the ordered sequence (`backend` module absent; spec calls the LogBook an
append-only collection). -/
def LogBook.add_entry (lb : LogBook) (e : LogEntry) : LogBook :=
  ⟨lb.entries ++ [e]⟩

/-- Modelled from the spec: `LogBook.get_logs(days)` is a linear date-range
filter over the sequence, keeping the entries of the last `days` days up to
`today` (`backend` module absent). -/
def LogBook.get_logs (lb : LogBook) (today days : ℕ) : List LogEntry :=
  lb.entries.filter (fun e => decide (today - days ≤ e.timestamp ∧ e.timestamp ≤ today))

/-- The summary statistics rendered by `app.py` lines 176-182. -/
structure Stats where
  total_calories : ℚ
  avg_calories : ℚ
  total_sessions : ℕ
  total_duration : ℚ
deriving Repr, DecidableEq

/-- Modelled from the spec: `LogBook.get_stats(days)` is a reduce over the
same date-filtered entries as `get_logs(days)` (`backend` module absent; the
spec states the totals equal the sum/average of the `get_logs(days)`
entries). -/
def LogBook.get_stats (lb : LogBook) (today days : ℕ) : Stats :=
  let logs := lb.get_logs today days
  { total_calories := (logs.map LogEntry.calories_burned).sum
    avg_calories := (logs.map LogEntry.calories_burned).sum / (logs.length : ℚ)
    total_sessions := logs.length
    total_duration := (logs.map LogEntry.duration).sum }

/-- One point of the per-day aggregation consumed by the daily trend chart
(`app.py` lines 187-198). -/
structure DailyAggregate where
  date : ℕ
  calories_burned : ℚ
deriving Repr, DecidableEq

/-- Modelled from the spec: `LogBook.get_daily_aggregates(days)` groups the
date-filtered entries by day and sums calories per day (`backend` module
absent; spec: per-day aggregation). -/
def LogBook.get_daily_aggregates (lb : LogBook) (today days : ℕ) : List DailyAggregate :=
  (List.range (days + 1)).map (fun i =>
    let d := today - days + i
    { date := d
      calories_burned :=
        (((lb.get_logs today days).filter (fun e => e.timestamp == d)).map
          LogEntry.calories_burned).sum })

/-- The LogBook operations named by the spec. -/
inductive LogOp where
  | add_entry (e : LogEntry) : LogOp
  | get_logs (today days : ℕ) : LogOp
  | get_stats (today days : ℕ) : LogOp
  | get_daily_aggregates (today days : ℕ) : LogOp
deriving Repr, DecidableEq

/-- The effect of each LogBook operation on the entry sequence: `add_entry`
appends; the three queries are pure reads and return the state unchanged
(modelled from the spec: the LogBook is an append-only collection with
filtering, aggregation and statistics queries). -/
def LogBook.apply (lb : LogBook) : LogOp → LogBook
  | .add_entry e => lb.add_entry e
  | .get_logs _ _ => lb
  | .get_stats _ _ => lb
  | .get_daily_aggregates _ _ => lb

/-- The inputs passed to `predictor.predict_calories` in `app.py` lines
133-136: gender, age, height, weight, duration, heart_rate, body_temp,
exercise_type. -/
structure PredictorInput where
  gender : Gender
  age : ℚ
  height : ℚ
  weight : ℚ
  duration : ℚ
  heart_rate : ℚ
  body_temp : ℚ
  exercise_type : String
deriving Repr, DecidableEq

/-- Modelled from the spec: an intensity factor per exercise type, one of the
lookup tables the spec attributes to the backend. -/
def exercise_intensity : String → ℚ
  | "Running" => 1.2
  | "Walking" => 0.7
  | "Cycling" => 1.0
  | "Swimming" => 1.1
  | "Gym" => 0.9
  | _ => 1.0

/-- Modelled from the spec: `CaloriePredictor.predict_calories` lives in the
absent `backend` module; the spec describes it as a deterministic closed-form
estimate (or a single-point inference from a fixed small model) over the
eight inputs, with no error cases.  The concrete coefficients here are a
stand-in closed form; the claims proved about it depend only on it being a
total pure function of its input. -/
def CaloriePredictor.predict_calories (i : PredictorInput) : ℚ :=
  i.duration * (i.heart_rate * (0.1 : ℚ) + i.weight * (0.05 : ℚ)
      + (i.body_temp - 37) * 2 + (if i.gender = .Male then 1 else 0))
    * exercise_intensity i.exercise_type

/-- The analysis record rendered in `app.py` lines 240-255: trends, insights
and recommendations. -/
structure Analysis where
  trends : List String
  insights : List String
  recommendations : List String
deriving Repr, DecidableEq

/-- Modelled from the spec: `AIAnalyzer.analyze_performance` lives in the
absent `backend` module; the spec describes it as simple trend deltas and
template strings keyed by thresholds over the logs and the profile. -/
def AIAnalyzer.analyze_performance (logs : List LogEntry) (profile_bmi : ℚ) : Analysis :=
  let avg := (logs.map LogEntry.calories_burned).sum / (logs.length : ℚ)
  { trends :=
      if avg > 300 then ["Average burn per session is high."]
      else ["Average burn per session is moderate."]
    insights :=
      if profile_bmi > 25 then ["Higher-intensity cardio supports your goal."]
      else ["Keep a balanced routine."]
    recommendations :=
      if logs.length < 3 then ["Log more sessions for better analysis."]
      else ["Maintain your current consistency."] }

/-- What the Logbook & Analytics tab renders: either the empty-state message
or the dashboard that carries the computed statistics, daily aggregates and
AI analysis. -/
inductive AnalyticsView where
  | emptyState (message : String) : AnalyticsView
  | dashboard (stats : Stats) (daily : List DailyAggregate) (analysis : Analysis) :
      AnalyticsView
deriving Repr, DecidableEq

/-- The control flow of `app.py` lines 168-266: fetch `get_logs(days)`, and
only when the result is non-empty compute `get_stats`,
`get_daily_aggregates` and `AIAnalyzer.analyze_performance`; otherwise show
the empty-state message of line 266. -/
def render_analytics_tab (lb : LogBook) (today days : ℕ) (profile_bmi : ℚ) :
    AnalyticsView :=
  if (lb.get_logs today days).isEmpty then
    .emptyState "No logs yet! Start by predicting your calorie burn in the first tab."
  else
    .dashboard (lb.get_stats today days) (lb.get_daily_aggregates today days)
      (AIAnalyzer.analyze_performance (lb.get_logs today days) profile_bmi)

/-- What the sidebar Quick Stats section renders. -/
inductive SidebarStats where
  | emptyWeek (message : String) : SidebarStats
  | weekStats (total_calories : ℚ) (sessions : ℕ) : SidebarStats
deriving Repr, DecidableEq

/-- The control flow of `app.py` lines 541-546: if `get_logs(7)` is empty show
the info message, otherwise show this week's totals from `get_stats(7)`. -/
def render_sidebar_stats (lb : LogBook) (today : ℕ) : SidebarStats :=
  if (lb.get_logs today 7).isEmpty then
    .emptyWeek "No activity this week. Start logging!"
  else
    .weekStats (lb.get_stats today 7).total_calories
      (lb.get_stats today 7).total_sessions

/-- One step of the monthly plan, with the fields read by `app.py` lines
442-457. -/
structure MonthlyPlanStep where
  month : ℕ
  target_weight : ℚ
  daily_calorie_adjustment : ℤ
  exercise_goal : String
  focus_areas : List String
deriving Repr, DecidableEq

/-- The result of `advisor.get_monthly_suggestions`: a timeline and the list
of monthly steps, as read by `app.py` lines 437-469. -/
structure MonthlySuggestions where
  timeline_months : ℕ
  monthly_plan : List MonthlyPlanStep
deriving Repr, DecidableEq

/-- Modelled from the spec: the plan length in months, derived
deterministically from the weight difference at a steady rate of about 2 kg
per month, and at least one month (`backend` module absent). -/
def plan_months (weight tw : ℚ) : ℕ := max 1 (Int.toNat ⌈|tw - weight| / 2⌉)

/-- Modelled from the spec: the weight target after `k` of `m` months, the
linear interpolation from the current weight to the target weight
(`backend` module absent; the spec says the monthly weight targets
interpolate between current and target weight). -/
def month_target (weight tw : ℚ) (m k : ℕ) : ℚ :=
  weight + (tw - weight) * (k : ℚ) / (m : ℚ)

/-- Modelled from the spec: `NutritionAdvisor.get_monthly_suggestions` lives
in the absent `backend` module; the spec describes a month-by-month
weight-target plan derived deterministically from (current BMI, target BMI,
weight, height), whose targets interpolate from the current weight to the
target weight `target_bmi * (height/100)^2`. -/
def NutritionAdvisor.get_monthly_suggestions
    (bmi_now target_bmi weight height : ℚ) : MonthlySuggestions :=
  let tw := CalorieApp.target_weight target_bmi height
  let m := plan_months weight tw
  { timeline_months := m
    monthly_plan := (List.range m).map (fun i =>
      { month := i + 1
        target_weight := month_target weight tw m (i + 1)
        daily_calorie_adjustment := if tw < weight then -500 else 500
        exercise_goal := "150 minutes of moderate activity per week"
        focus_areas := ["Nutrition", "Exercise", "Consistency"] }) }

/-- The projected weight journey of `app.py` lines 468-469: the current
weight followed by the target weight of each month of the plan. -/
def plan_weight_seq (bmi_now target_bmi weight height : ℚ) : List ℚ :=
  weight ::
    ((NutritionAdvisor.get_monthly_suggestions bmi_now target_bmi weight
        height).monthly_plan.map MonthlyPlanStep.target_weight)

end CalorieApp

namespace CalorieApp

/-- C1: For every gender, weight, height and age, the BMR computed by the
Daily Calorie Guidelines equals the Mifflin-St Jeor equation exactly:
`10*weight + 6.25*height - 5*age + 5` for Male and
`10*weight + 6.25*height - 5*age - 161` otherwise. -/
theorem bmr_matches_mifflin_st_jeor (gender : Gender) (weight height age : ℚ) :
    bmr gender weight height age = mifflin_st_jeor gender weight height age := by
  cases gender <;> simp [bmr, mifflin_st_jeor]

/-- C5: BMI is `weight / (height/100)^2`, matching the spec's
weight-over-metres-squared definition, and converting a target BMI to a target
weight and back yields the original target BMI. -/
theorem bmi_def_and_round_trip (weight height target_bmi : ℚ)
    (hh : height ≠ 0) :
    bmi weight height = spec_bmi weight (height / 100) ∧
    bmi (target_weight target_bmi height) height = target_bmi := by
  constructor
  · rfl
  · have h100 : height / 100 ≠ 0 := by
      exact div_ne_zero hh (by norm_num)
    have hsq : (height / 100) ^ 2 ≠ 0 := pow_ne_zero 2 h100
    unfold bmi target_weight
    field_simp

/-- Witness for C5 at weight 70 kg, height 170 cm, target BMI 22. -/
theorem bmi_def_and_round_trip_witness :
    bmi 70 170 = spec_bmi 70 (170 / 100) ∧
    bmi (target_weight 22 170) 170 = 22 :=
  bmi_def_and_round_trip 70 170 22 (by norm_num)

/-- C9: At a BMI of exactly 25 the Daily Calorie Guidelines shows a Weight
Gain Goal of `bmr*1.55 + 500`, not a Weight Loss Goal; the Weight Loss Goal
`bmr*1.55 - 500` appears exactly when BMI is strictly greater than 25. -/
theorem weight_goal_at_boundary (bmr_value : ℚ) :
    weight_goal_metric 25 bmr_value = .gain (bmr_value * 1.55 + 500) ∧
    ∀ bmi_value : ℚ,
      (∃ k, weight_goal_metric bmi_value bmr_value = .loss k) ↔ 25 < bmi_value := by
  constructor
  · simp [weight_goal_metric]
  · intro bmi_value
    constructor
    · rintro ⟨k, hk⟩
      by_contra hle
      simp [weight_goal_metric, hle] at hk
    · intro hgt
      exact ⟨bmr_value * 1.55 - 500, by simp [weight_goal_metric, hgt]⟩

/-- C10: The duration slider's value is always at least 5, hence positive, so
the Cal/min division `calories / duration` is well-defined: multiplying back
by the duration recovers the calories. -/
theorem cal_per_min_well_defined (calories : ℚ) (x : ℤ) :
    5 ≤ slider_value 5 180 x ∧
    cal_per_min calories (slider_value 5 180 x) * ((slider_value 5 180 x : ℤ) : ℚ)
      = calories := by
  have h5 : (5 : ℤ) ≤ slider_value 5 180 x := le_max_left _ _
  refine ⟨h5, ?_⟩
  have hne : ((slider_value 5 180 x : ℤ) : ℚ) ≠ 0 := by
    have : (0 : ℤ) < slider_value 5 180 x := lt_of_lt_of_le (by norm_num) h5
    exact_mod_cast this.ne'
  unfold cal_per_min
  field_simp

/-- C3: `get_bmi_category` assigns the category using exactly the boundaries
18.5, 25 and 30: below 18.5 is underweight, from 18.5 up to 25 is normal,
from 25 up to 30 is overweight, and 30 and above is obese. -/
theorem bmi_category_boundaries (b : ℚ) :
    (b < 18.5 → get_bmi_category b = .Underweight) ∧
    (18.5 ≤ b → b < 25 → get_bmi_category b = .Normal) ∧
    (25 ≤ b → b < 30 → get_bmi_category b = .Overweight) ∧
    (30 ≤ b → get_bmi_category b = .Obese) := by
  unfold get_bmi_category
  refine ⟨fun h1 => ?_, fun h1 h2 => ?_, fun h1 h2 => ?_, fun h1 => ?_⟩ <;>
    split_ifs <;> first | rfl | linarith

/-- Witness for C3: one BMI value inside each of the four bands. -/
theorem bmi_category_boundaries_witness :
    get_bmi_category 17 = .Underweight ∧ get_bmi_category 22 = .Normal ∧
    get_bmi_category 27 = .Overweight ∧ get_bmi_category 30 = .Obese :=
  ⟨(bmi_category_boundaries 17).1 (by norm_num),
   (bmi_category_boundaries 22).2.1 (by norm_num) (by norm_num),
   (bmi_category_boundaries 27).2.2.1 (by norm_num) (by norm_num),
   (bmi_category_boundaries 30).2.2.2 (by norm_num)⟩

/-- C2: For every log history and days parameter, `get_stats(days)` is
consistent with `get_logs(days)`: total calories is the sum of
`calories_burned` over the returned entries, the average is that sum divided
by their number, the session count is their number, and the total duration is
the sum of their durations. -/
theorem get_stats_consistent_with_get_logs (lb : LogBook) (today days : ℕ) :
    (lb.get_stats today days).total_calories
        = ((lb.get_logs today days).map LogEntry.calories_burned).sum ∧
    (lb.get_stats today days).avg_calories
        = ((lb.get_logs today days).map LogEntry.calories_burned).sum
            / ((lb.get_logs today days).length : ℚ) ∧
    (lb.get_stats today days).total_sessions = (lb.get_logs today days).length ∧
    (lb.get_stats today days).total_duration
        = ((lb.get_logs today days).map LogEntry.duration).sum :=
  ⟨rfl, rfl, rfl, rfl⟩

/-- C6: The LogBook is append-only: every operation either leaves the entry
sequence unchanged or appends at most one entry at its end (so earlier
entries are never modified, removed or reordered), and `add_entry e` appends
exactly `e`. -/
theorem logbook_append_only (lb : LogBook) (op : LogOp) :
    (∃ tail, (lb.apply op).entries = lb.entries ++ tail ∧ tail.length ≤ 1) ∧
    (∀ e, (lb.add_entry e).entries = lb.entries ++ [e]) := by
  refine ⟨?_, fun e => rfl⟩
  cases op with
  | add_entry e => exact ⟨[e], rfl, by norm_num⟩
  | get_logs today days => exact ⟨[], by simp [LogBook.apply]⟩
  | get_stats today days => exact ⟨[], by simp [LogBook.apply]⟩
  | get_daily_aggregates today days => exact ⟨[], by simp [LogBook.apply]⟩

/-- C7: `predict_calories` is deterministic: two runs on equal inputs return
equal calorie estimates.  Totality over the input type (no error case inside
the UI's declared ranges) is given by the return type: the function yields a
rational for every input. -/
theorem predict_calories_deterministic (i j : PredictorInput) (h : i = j) :
    CaloriePredictor.predict_calories i = CaloriePredictor.predict_calories j := by
  rw [h]

/-- Witness for C7 at a concrete input pair. -/
theorem predict_calories_deterministic_witness :
    CaloriePredictor.predict_calories ⟨.Male, 30, 170, 70, 30, 120, 37, "Running"⟩
      = CaloriePredictor.predict_calories ⟨.Male, 30, 170, 70, 30, 120, 37, "Running"⟩ :=
  predict_calories_deterministic _ _ rfl

/-- C8: When `get_logs(days)` is empty the analytics tab renders the
empty-state message and carries no statistics, daily aggregates or AI
analysis; those are computed only in the non-empty branch.  Likewise the
sidebar Quick Stats renders its info message when `get_logs(7)` is empty. -/
theorem empty_logs_guard (lb : LogBook) (today days : ℕ) (profile_bmi : ℚ) :
    (lb.get_logs today days = [] →
      render_analytics_tab lb today days profile_bmi
        = .emptyState "No logs yet! Start by predicting your calorie burn in the first tab.") ∧
    (lb.get_logs today days ≠ [] →
      render_analytics_tab lb today days profile_bmi
        = .dashboard (lb.get_stats today days) (lb.get_daily_aggregates today days)
            (AIAnalyzer.analyze_performance (lb.get_logs today days) profile_bmi)) ∧
    (lb.get_logs today 7 = [] →
      render_sidebar_stats lb today = .emptyWeek "No activity this week. Start logging!") := by
  refine ⟨fun h => ?_, fun h => ?_, fun h => ?_⟩
  · simp [render_analytics_tab, h]
  · simp [render_analytics_tab, List.isEmpty_iff, h]
  · simp [render_sidebar_stats, h]

/-- Witness for C8: the empty LogBook renders the empty states. -/
theorem empty_logs_guard_witness :
    render_analytics_tab ⟨[]⟩ 30 7 22
        = .emptyState "No logs yet! Start by predicting your calorie burn in the first tab." ∧
    render_sidebar_stats ⟨[]⟩ 30 = .emptyWeek "No activity this week. Start logging!" :=
  ⟨(empty_logs_guard ⟨[]⟩ 30 7 22).1 rfl, (empty_logs_guard ⟨[]⟩ 30 7 22).2.2 rfl⟩

theorem plan_months_pos (weight tw : ℚ) : 0 < plan_months weight tw :=
  lt_of_lt_of_le one_pos (le_max_left _ _)

theorem plan_weight_seq_length (bmi_now target_bmi weight height : ℚ) :
    (plan_weight_seq bmi_now target_bmi weight height).length
      = plan_months weight (target_weight target_bmi height) + 1 := by
  simp [plan_weight_seq, NutritionAdvisor.get_monthly_suggestions]

theorem plan_weight_seq_get (bmi_now target_bmi weight height : ℚ) (k : ℕ)
    (hk : k < (plan_weight_seq bmi_now target_bmi weight height).length) :
    (plan_weight_seq bmi_now target_bmi weight height).get ⟨k, hk⟩
      = month_target weight (target_weight target_bmi height)
          (plan_months weight (target_weight target_bmi height)) k := by
  cases k with
  | zero => simp [plan_weight_seq, month_target]
  | succ n =>
    simp [plan_weight_seq, NutritionAdvisor.get_monthly_suggestions,
      List.get_eq_getElem, List.getElem_cons_succ, List.getElem_map,
      List.getElem_range]

theorem month_target_mono (w tw : ℚ) (m k j : ℕ) (hm : 0 < m) (hkj : k ≤ j) :
    (tw ≤ w → month_target w tw m j ≤ month_target w tw m k) ∧
    (w ≤ tw → month_target w tw m k ≤ month_target w tw m j) := by
  have hmq : (0 : ℚ) < (m : ℚ) := by exact_mod_cast hm
  have hkjq : ((k : ℕ) : ℚ) ≤ ((j : ℕ) : ℚ) := by exact_mod_cast hkj
  constructor
  · intro hle
    have h1 : (tw - w) * (j : ℚ) ≤ (tw - w) * (k : ℚ) :=
      mul_le_mul_of_nonpos_left hkjq (by linarith)
    have h2 := (div_le_div_iff_of_pos_right hmq).mpr h1
    unfold month_target
    linarith
  · intro hle
    have h1 : (tw - w) * (k : ℚ) ≤ (tw - w) * (j : ℚ) :=
      mul_le_mul_of_nonneg_left hkjq (by linarith)
    have h2 := (div_le_div_iff_of_pos_right hmq).mpr h1
    unfold month_target
    linarith

theorem month_target_last (w tw : ℚ) (m : ℕ) (hm : 0 < m) :
    month_target w tw m m = tw := by
  have hmq : ((m : ℕ) : ℚ) ≠ 0 := by exact_mod_cast hm.ne'
  unfold month_target
  rw [mul_div_assoc, div_self hmq, mul_one]
  ring

theorem plan_weight_seq_getLast (bmi_now target_bmi weight height : ℚ) :
    (plan_weight_seq bmi_now target_bmi weight height).getLast?
      = some (target_weight target_bmi height) := by
  have hlen := plan_weight_seq_length bmi_now target_bmi weight height
  have hm := plan_months_pos weight (target_weight target_bmi height)
  have hlt : (plan_weight_seq bmi_now target_bmi weight height).length - 1
      < (plan_weight_seq bmi_now target_bmi weight height).length := by omega
  rw [List.getLast?_eq_getElem?, List.getElem?_eq_getElem hlt,
    ← List.get_eq_getElem _ ⟨_, hlt⟩, plan_weight_seq_get]
  have hidx : (plan_weight_seq bmi_now target_bmi weight height).length - 1
      = plan_months weight (target_weight target_bmi height) := by omega
  rw [hidx, month_target_last _ _ _ hm]

/-- C4: The projected weight sequence (the current weight followed by the
monthly `target_weight` values of `get_monthly_suggestions`) starts at the
current weight, ends at the target weight, and is monotone between them:
non-increasing when the target weight is below the current weight and
non-decreasing when it is above. -/
theorem monthly_plan_monotone (bmi_now target_bmi weight height : ℚ) (i j : ℕ)
    (hi : i < (plan_weight_seq bmi_now target_bmi weight height).length)
    (hj : j < (plan_weight_seq bmi_now target_bmi weight height).length)
    (hij : i ≤ j) :
    (plan_weight_seq bmi_now target_bmi weight height).head? = some weight ∧
    (plan_weight_seq bmi_now target_bmi weight height).getLast?
        = some (target_weight target_bmi height) ∧
    (target_weight target_bmi height ≤ weight →
      (plan_weight_seq bmi_now target_bmi weight height).get ⟨j, hj⟩
        ≤ (plan_weight_seq bmi_now target_bmi weight height).get ⟨i, hi⟩) ∧
    (weight ≤ target_weight target_bmi height →
      (plan_weight_seq bmi_now target_bmi weight height).get ⟨i, hi⟩
        ≤ (plan_weight_seq bmi_now target_bmi weight height).get ⟨j, hj⟩) := by
  refine ⟨rfl, plan_weight_seq_getLast bmi_now target_bmi weight height, ?_, ?_⟩ <;>
    rw [plan_weight_seq_get, plan_weight_seq_get]
  · exact (month_target_mono weight (target_weight target_bmi height) _ i j
      (plan_months_pos _ _) hij).1
  · exact (month_target_mono weight (target_weight target_bmi height) _ i j
      (plan_months_pos _ _) hij).2

/-- Witness for C4 at current BMI 30, target BMI 22, weight 74 kg, height
200 cm: the target weight is 88 kg, above the current weight, and the first
month's target is at least the starting weight. -/
theorem monthly_plan_monotone_witness :
    (plan_weight_seq 30 22 74 200).get
        ⟨0, by rw [plan_weight_seq_length]; omega⟩
      ≤ (plan_weight_seq 30 22 74 200).get
        ⟨1, by rw [plan_weight_seq_length]
               have := plan_months_pos (74 : ℚ) (target_weight 22 200); omega⟩ :=
  (monthly_plan_monotone 30 22 74 200 0 1
      (by rw [plan_weight_seq_length]; omega)
      (by rw [plan_weight_seq_length]
          have := plan_months_pos (74 : ℚ) (target_weight 22 200); omega)
      (Nat.zero_le 1)).2.2.2 (by norm_num [target_weight])

end CalorieApp
